import Mathlib

/-!
Verification of the watch/reconcile engine and pipeline-run state tracking
of the osbs-client Tekton module (`osbs/tekton.py`), as a shallow embedding.

External collaborators (HTTP transport, JSON codec, clocks) are modelled as
oracle inputs: a watch connection is a trace of attempt outcomes, the JSON
decoding of a stream line is an abstract parse result, and the fresh GET
issued after each valid watch event is a function from the index of the GET
to the snapshot it returns.
-/

/- Module-level retry constants of osbs/tekton.py. -/

def WATCH_RETRY_SECS : Nat := 5

def WATCH_RETRY : Nat := 20

def MAX_BAD_RESPONSES : Nat := 20

def WAIT_RETRY_SECS : Nat := 5

def WAIT_RETRY_HOURS : Nat := 5

def WAIT_RETRY : Nat := (WAIT_RETRY_HOURS * 3600) / WAIT_RETRY_SECS

/-- Outcome of decoding one line of the watch stream, restricted to the
lines the per-line loop survives: `undecodable` stands for a line
`json.loads` rejects with `ValueError` (caught and skipped); `decoded
hasType hasObject obj` for a decoded iterable value, carrying the outcomes
of the `type` and `object` membership tests and the event payload `obj`
(snapshots are modelled as `Nat`).  Lines that raise an uncaught `TypeError`
(charset guess failure, or a decoded non-iterable scalar) are modelled
separately by `PyLineParse` below and end the generator. -/
inductive LineParse where
  | undecodable : LineParse
  | decoded (hasType hasObject : Bool) (obj : Nat) : LineParse
  deriving DecidableEq, Repr

/-- A watch-event line is structurally valid when it decoded and has both the
`object` key and the `type` key (the source checks `object` first, then
`type`; a line failing either check is logged and skipped). -/
def lineValid : LineParse → Bool
  | .undecodable => false
  | .decoded hasType hasObject _ => hasObject && hasType

/-- The inner per-line loop of `Openshift.watch_resource` over the lines it
survives (those of `LineParse`): for every structurally valid line, issue a
fresh non-streamed GET (`fresh i` is the body of the `i`-th such GET of the
session) and yield its body; the other lines are skipped.  The decoded
event payload is never yielded.  The loop's behavior on lines that raise an
uncaught `TypeError` is modelled by `processLinesFull` below. -/
def processLines (fresh : Nat → Nat) (idx : Nat) : List LineParse → List Nat
  | [] => []
  | l :: rest =>
    if lineValid l then fresh idx :: processLines fresh (idx + 1) rest
    else processLines fresh idx rest

/-- How one connection attempt of `watch_resource` ends after its lines were
iterated: the stream ends normally; an `OsbsResponseException` is raised
(by `check_response` on the watch response or on a fresh GET); a raw or
wrapped `requests.ConnectionError`/`requests.Timeout` occurs; or an
`OsbsException` with a non-transport cause is raised. -/
inductive AttemptEnd where
  | streamEnd : AttemptEnd
  | badResponse : AttemptEnd
  | transportDrop : AttemptEnd
  | otherError : AttemptEnd
  deriving DecidableEq, Repr

/-- One connection attempt of the watch loop: the lines successfully iterated
(each valid one having had a successful fresh GET) and how the attempt ended. -/
structure Attempt where
  lines : List LineParse
  outcome : AttemptEnd
  deriving Repr

/-- An exception propagated out of `watch_resource` to the caller. -/
inductive RaisedErr where
  | badResponseExc : RaisedErr
  | otherExc : RaisedErr
  deriving DecidableEq, Repr

/-- Observable result of a `watch_resource` generator: the snapshots it
yielded and the exception it raised, if any (`none` means the `for _ in
range(WATCH_RETRY)` loop exhausted and the generator ended silently). -/
structure WatchResult where
  yields : List Nat
  raised : Option RaisedErr
  deriving DecidableEq, Repr

/-- The retry loop of `Openshift.watch_resource` over a trace of connection
attempts.  `fuel` is the remaining iterations of `range(WATCH_RETRY)`, `i`
the index of the next attempt in the trace, `bad` the current
`bad_responses` counter, `yIdx` the global index of the next fresh GET.
A `badResponse` increments `bad` and re-raises once `bad` exceeds
`MAX_BAD_RESPONSES`; a `transportDrop` is swallowed; an `otherError` is
re-raised at once; in the remaining cases the loop sleeps and reconnects. -/
def watchLoop (fresh : Nat → Nat) (trace : Nat → Attempt) :
    Nat → Nat → Nat → Nat → WatchResult
  | 0, _, _, _ => ⟨[], none⟩
  | fuel + 1, i, bad, yIdx =>
    let a := trace i
    let ys := processLines fresh yIdx a.lines
    let yIdx' := yIdx + a.lines.countP (fun l => lineValid l)
    match a.outcome with
    | .streamEnd =>
      let r := watchLoop fresh trace fuel (i + 1) bad yIdx'
      ⟨ys ++ r.yields, r.raised⟩
    | .badResponse =>
      if bad + 1 > MAX_BAD_RESPONSES then ⟨ys, some .badResponseExc⟩
      else
        let r := watchLoop fresh trace fuel (i + 1) (bad + 1) yIdx'
        ⟨ys ++ r.yields, r.raised⟩
    | .transportDrop =>
      let r := watchLoop fresh trace fuel (i + 1) bad yIdx'
      ⟨ys ++ r.yields, r.raised⟩
    | .otherError => ⟨ys, some .otherExc⟩

/-- `Openshift.watch_resource`: run the retry loop for `WATCH_RETRY`
attempts, starting with a zero `bad_responses` counter. -/
def watch_resource (fresh : Nat → Nat) (trace : Nat → Attempt) : WatchResult :=
  watchLoop fresh trace WATCH_RETRY 0 0 0

/-- Whether a watch run terminated by raising the accumulated
`OsbsResponseException`. -/
def raisedBadResponse (r : WatchResult) : Bool :=
  r.raised == some RaisedErr.badResponseExc

theorem processLines_append (fresh : Nat → Nat) (idx : Nat) (l1 l2 : List LineParse) :
    processLines fresh idx (l1 ++ l2)
      = processLines fresh idx l1
        ++ processLines fresh (idx + l1.countP (fun l => lineValid l)) l2 := by
  induction l1 generalizing idx with
  | nil => simp [processLines]
  | cons hd tl ih =>
    by_cases h : lineValid hd = true
    · simp [processLines, h, ih, List.countP_cons, Nat.add_assoc, Nat.add_comm 1]
    · simp [processLines, h, ih, List.countP_cons]

theorem processLines_eq_map (fresh : Nat → Nat) (idx : Nat) (lines : List LineParse) :
    processLines fresh idx lines
      = (List.range (lines.countP (fun l => lineValid l))).map (fun k => fresh (idx + k)) := by
  induction lines generalizing idx with
  | nil => simp [processLines]
  | cons hd tl ih =>
    by_cases h : lineValid hd = true
    · rw [show processLines fresh idx (hd :: tl)
            = fresh idx :: processLines fresh (idx + 1) tl by simp [processLines, h]]
      rw [ih, List.countP_cons, if_pos h, List.range_succ_eq_map]
      simp [List.map_map, Function.comp, Nat.add_assoc, Nat.add_comm 1]
    · rw [show processLines fresh idx (hd :: tl)
            = processLines fresh idx tl by simp [processLines, h]]
      rw [ih, List.countP_cons, if_neg h, Nat.add_zero]

/-- Full outcome of decoding one line of the watch stream, including the
cases whose exception escapes every handler of `watch_resource`:
`noEncoding` — `guess_json_utf` returns `None` and `line.decode(None)`
raises `TypeError`; `undecodable` — `json.loads` raises `ValueError`,
caught, logged and skipped; `decodedNonIterable` — `json.loads` yields a
non-iterable scalar (`int`, `float`, `bool`, `None`) and the membership
test `'object' not in j` raises `TypeError`; `decodedIterable` — the
membership tests succeed (a dict, list, or str, where membership is key,
element or substring containment), with the outcomes of the `type` and
`object` tests and the event payload. -/
inductive PyLineParse where
  | noEncoding : PyLineParse
  | undecodable : PyLineParse
  | decodedNonIterable : PyLineParse
  | decodedIterable (hasType hasObject : Bool) (obj : Nat) : PyLineParse
  deriving DecidableEq, Repr

/-- The per-line loop of `Openshift.watch_resource` over the full line
model: valid lines yield the fresh-GET body, lines failing JSON decoding or
a membership test are skipped, and a `noEncoding` or `decodedNonIterable`
line raises `TypeError` past the `ValueError` handler and all the outer
handlers, ending the generator.  Returns the snapshots yielded before the
loop ended and whether it ended by the uncaught `TypeError`. -/
def processLinesFull (fresh : Nat → Nat) (idx : Nat) :
    List PyLineParse → List Nat × Bool
  | [] => ([], false)
  | .noEncoding :: _ => ([], true)
  | .decodedNonIterable :: _ => ([], true)
  | .undecodable :: rest => processLinesFull fresh idx rest
  | .decodedIterable hasType hasObject _ :: rest =>
    if hasObject && hasType then
      let r := processLinesFull fresh (idx + 1) rest
      (fresh idx :: r.1, r.2)
    else processLinesFull fresh idx rest

/-- Embedding of the benign line model into the full one: exactly the lines
that do not raise an uncaught `TypeError`. -/
def toPyLineParse : LineParse → PyLineParse
  | .undecodable => .undecodable
  | .decoded hasType hasObject obj => .decodedIterable hasType hasObject obj

theorem processLinesFull_benign (fresh : Nat → Nat) (idx : Nat)
    (lines : List LineParse) :
    processLinesFull fresh idx (lines.map toPyLineParse)
      = (processLines fresh idx lines, false) := by
  induction lines generalizing idx with
  | nil => simp [processLinesFull, processLines]
  | cons hd tl ih =>
    cases hd with
    | undecodable =>
      simpa [processLinesFull, toPyLineParse, processLines, lineValid] using ih idx
    | decoded hasType hasObject obj =>
      by_cases h : (hasObject && hasType) = true
      · simp [processLinesFull, toPyLineParse, processLines, lineValid, h, ih]
      · simp [processLinesFull, toPyLineParse, processLines, lineValid, h, ih]

/-- Claim C1 (amended): for every sequence of lines received on one watch
connection, `Openshift.watch_resource` yields exactly one fresh re-fetched
snapshot (the body of a separate non-streamed GET, never the event payload)
per structurally valid event line and nothing for the others; a line that
fails JSON decoding (`ValueError`), or decodes to an iterable missing
`object` or `type`, is logged, skipped, and never terminates the yielded
sequence; but a line that decodes to a non-iterable JSON scalar (the
membership check `'object' not in j` raises `TypeError`), or whose charset
guess fails (`line.decode(None)` raises `TypeError`), terminates the watch
generator with that uncaught exception. -/
theorem watch_line_loop_yields_and_terminations
    (fresh : Nat → Nat) (idx : Nat) (lines : List LineParse)
    (pls : List PyLineParse) :
    processLinesFull fresh idx (lines.map toPyLineParse)
      = ((List.range (lines.countP (fun l => lineValid l))).map (fun k => fresh (idx + k)),
         false)
    ∧ processLinesFull fresh idx (PyLineParse.undecodable :: pls)
        = processLinesFull fresh idx pls
    ∧ (∀ (hasObject : Bool) (obj : Nat),
        processLinesFull fresh idx (PyLineParse.decodedIterable false hasObject obj :: pls)
          = processLinesFull fresh idx pls)
    ∧ (∀ (hasType : Bool) (obj : Nat),
        processLinesFull fresh idx (PyLineParse.decodedIterable hasType false obj :: pls)
          = processLinesFull fresh idx pls)
    ∧ processLinesFull fresh idx (PyLineParse.noEncoding :: pls) = ([], true)
    ∧ processLinesFull fresh idx (PyLineParse.decodedNonIterable :: pls) = ([], true) := by
  refine ⟨?_, ?_, ?_, ?_, rfl, rfl⟩
  · rw [processLinesFull_benign, processLines_eq_map]
  · simp [processLinesFull]
  · intro hasObject obj; simp [processLinesFull]
  · intro hasType obj; simp [processLinesFull]

/-- Counterexample to claim C1 as stated: the line `b"5"` is JSON-decodable
to the non-iterable scalar 5 — malformed in the claim's sense — yet it does
terminate the yielded sequence: the membership check raises an uncaught
`TypeError`, so a structurally valid event line following it yields no
snapshot at all. -/
theorem scalar_watch_line_terminates_sequence :
    processLinesFull (fun k => k + 100) 0
      [PyLineParse.decodedNonIterable, PyLineParse.decodedIterable true true 7]
      = ([], true) := by
  decide

theorem watchLoop_no_bad_raise (fresh : Nat → Nat) (trace : Nat → Attempt) :
    ∀ (fuel i bad yIdx : Nat), bad + fuel ≤ MAX_BAD_RESPONSES →
      raisedBadResponse (watchLoop fresh trace fuel i bad yIdx) = false := by
  intro fuel
  induction fuel with
  | zero =>
    intro i bad yIdx _
    simp [watchLoop, raisedBadResponse]
  | succ n ih =>
    intro i bad yIdx hle
    rw [watchLoop]
    cases h : (trace i).outcome with
    | streamEnd =>
      simp only [h, raisedBadResponse]
      exact ih (i + 1) bad _ (by omega)
    | badResponse =>
      simp only [h]
      have hb : ¬ bad + 1 > MAX_BAD_RESPONSES := by
        simp [MAX_BAD_RESPONSES] at hle ⊢
        omega
      simp only [hb, if_false, raisedBadResponse]
      exact ih (i + 1) (bad + 1) _ (by omega)
    | transportDrop =>
      simp only [h, raisedBadResponse]
      exact ih (i + 1) bad _ (by omega)
    | otherError =>
      simp [h, raisedBadResponse]

/-- Claim C2 (amended): in `Openshift.watch_resource`, a transport-level
connection drop or timeout never increments the bad-response counter and
always leads to a reconnect attempt (the loop recurses with the same
counter), and each upstream-reported error response increments the counter;
but the propagation of the accumulated failure is unreachable: raising
requires the counter to exceed `MAX_BAD_RESPONSES` (20) while the attempt
bound `WATCH_RETRY` (20) caps the number of increments, so no execution
terminates by raising the counted failure — the watch always ends by
exhaustion of the attempt bound (or by an unrelated re-raised error). -/
theorem watch_resource_failure_classes
    (fresh : Nat → Nat) (trace : Nat → Attempt) (fuel i bad yIdx : Nat) :
    ((trace i).outcome = AttemptEnd.transportDrop →
      watchLoop fresh trace (fuel + 1) i bad yIdx
        = ⟨processLines fresh yIdx (trace i).lines
            ++ (watchLoop fresh trace fuel (i + 1) bad
                (yIdx + (trace i).lines.countP (fun l => lineValid l))).yields,
           (watchLoop fresh trace fuel (i + 1) bad
                (yIdx + (trace i).lines.countP (fun l => lineValid l))).raised⟩)
    ∧ ((trace i).outcome = AttemptEnd.badResponse → bad + 1 ≤ MAX_BAD_RESPONSES →
      watchLoop fresh trace (fuel + 1) i bad yIdx
        = ⟨processLines fresh yIdx (trace i).lines
            ++ (watchLoop fresh trace fuel (i + 1) (bad + 1)
                (yIdx + (trace i).lines.countP (fun l => lineValid l))).yields,
           (watchLoop fresh trace fuel (i + 1) (bad + 1)
                (yIdx + (trace i).lines.countP (fun l => lineValid l))).raised⟩)
    ∧ raisedBadResponse (watch_resource fresh trace) = false := by
  refine ⟨?_, ?_, ?_⟩
  · intro h
    rw [watchLoop]
    simp only [h]
  · intro h hb
    rw [watchLoop]
    have hb' : ¬ bad + 1 > MAX_BAD_RESPONSES := by omega
    simp only [h, hb', if_false]
  · exact watchLoop_no_bad_raise fresh trace WATCH_RETRY 0 0 0 (by decide)

/-- Used by the claim C2 witness: a trace whose first attempt is a transport
drop and whose later attempts are upstream error responses. -/
def traceC2 : Nat → Attempt :=
  fun k => if k == 0 then ⟨[], AttemptEnd.transportDrop⟩ else ⟨[], AttemptEnd.badResponse⟩

/-- Witness for claim C2's theorem at the concrete trace `traceC2`: the
transport-drop hypothesis is discharged at attempt 0 and the bad-response
hypotheses at attempt 1. -/
theorem watch_resource_failure_classes_witness :
    ((traceC2 0).outcome = AttemptEnd.transportDrop
      ∧ watchLoop (fun _ => 0) traceC2 1 0 0 0
          = ⟨processLines (fun _ => 0) 0 (traceC2 0).lines
              ++ (watchLoop (fun _ => 0) traceC2 0 1 0
                  (0 + (traceC2 0).lines.countP (fun l => lineValid l))).yields,
             (watchLoop (fun _ => 0) traceC2 0 1 0
                  (0 + (traceC2 0).lines.countP (fun l => lineValid l))).raised⟩)
    ∧ ((traceC2 1).outcome = AttemptEnd.badResponse ∧ 0 + 1 ≤ MAX_BAD_RESPONSES
      ∧ watchLoop (fun _ => 0) traceC2 1 1 0 0
          = ⟨processLines (fun _ => 0) 0 (traceC2 1).lines
              ++ (watchLoop (fun _ => 0) traceC2 0 2 (0 + 1)
                  (0 + (traceC2 1).lines.countP (fun l => lineValid l))).yields,
             (watchLoop (fun _ => 0) traceC2 0 2 (0 + 1)
                  (0 + (traceC2 1).lines.countP (fun l => lineValid l))).raised⟩)
    ∧ raisedBadResponse (watch_resource (fun _ => 0) traceC2) = false :=
  ⟨⟨by decide,
    (watch_resource_failure_classes (fun _ => 0) traceC2 0 0 0 0).1 (by decide)⟩,
   ⟨by decide, by decide,
    (watch_resource_failure_classes (fun _ => 0) traceC2 0 1 0 0).2.1 (by decide) (by decide)⟩,
   (watch_resource_failure_classes (fun _ => 0) traceC2 0 0 0 0).2.2⟩

/-- Counterexample to claim C2 as stated: the execution in which every one of
the `WATCH_RETRY` (20) connection attempts reports an upstream error response
— the execution that maximizes the bad-response counter — still terminates
with no exception raised (`raised = none`, silent exhaustion of the attempt
bound), because the counter can reach at most 20 while raising would require
it to exceed `MAX_BAD_RESPONSES` (20). -/
theorem watch_resource_bad_saturation_silent :
    watch_resource (fun _ => 0) (fun _ => ⟨[], AttemptEnd.badResponse⟩)
      = ⟨[], none⟩ := by
  decide

/-- First entry of a status `conditions` list (`conditions[0]`). -/
structure Condition0 where
  status : String
  reason : String
  deriving DecidableEq, Repr

/-- The `terminated` record of a task-run step.  `message = none` models a
step with no `message` key; `some none` a message string whose JSON parse (or
entry lookup) raises and is swallowed by the source's `except` clause;
`some (some l)` a parsed list of `{key, value}` entries. -/
structure StepTerminated where
  exitCode : Int
  message : Option (Option (List (String × String)))
  deriving DecidableEq, Repr

/-- One entry of a task run's `status.steps` list. -/
structure Step where
  terminated : Option StepTerminated
  deriving DecidableEq, Repr

/-- The `status` of one task run.  `startTime` is the sort key of
`status.startTime` (the source parses an ISO-8601 UTC timestamp string to a
POSIX timestamp before comparing). -/
structure TaskRunStatus where
  conditions0 : Condition0
  completionTime : Option String
  startTime : Nat
  steps : Option (List Step)
  deriving DecidableEq, Repr

/-- One value of the `status.taskRuns` mapping of a pipeline run. -/
structure TaskRun where
  pipelineTaskName : String
  status : TaskRunStatus
  deriving DecidableEq, Repr

/-- A pipeline-run snapshot, with the fields the classification and
error-aggregation operations read.  `pluginErrors` is the `errors` mapping
extracted from the parsed `plugins-metadata` annotation (`none` when the
annotation or the mapping is absent or empty). -/
structure PipelineRunData where
  pluginErrors : Option (List (String × String))
  conditions0 : Condition0
  taskRuns : List (String × TaskRun)
  deriving DecidableEq, Repr

/-- The failure predicate `PipelineRun.any_task_failed` passes to
`_any_task_run_in_state`. -/
def match_failed (status reason : String) (has_completion_time : Bool) : Bool :=
  status == "False" && reason != "TaskRunCancelled" && has_completion_time

/-- The inner `matches_state` closure of `PipelineRun._any_task_run_in_state`:
apply the state predicate to `conditions[0].status`, `conditions[0].reason`
and whether `completionTime` is present. -/
def matches_state (match_state : String → String → Bool → Bool)
    (task_run : TaskRun) : Bool :=
  match_state task_run.status.conditions0.status task_run.status.conditions0.reason
    task_run.status.completionTime.isSome

/-- `PipelineRun._any_task_run_in_state`: whether any value of
`status.taskRuns` matches the state predicate. -/
def any_task_run_in_state (d : PipelineRunData)
    (match_state : String → String → Bool → Bool) : Bool :=
  (d.taskRuns.map Prod.snd).any (matches_state match_state)

/-- `PipelineRun.any_task_failed`. -/
def any_task_failed (d : PipelineRunData) : Bool :=
  any_task_run_in_state d match_failed

/-- Used by claim C3: a snapshot whose only task run has first-condition
status `False` and a non-cancellation reason but no `completionTime`. -/
def incompleteFailedRunData : PipelineRunData :=
  ⟨none, ⟨"Unknown", "Running"⟩,
   [("task-run-1", ⟨"binary-build", ⟨⟨"False", "Failed"⟩, none, 0, none⟩⟩)]⟩

/-- Claim C3: `PipelineRun.any_task_failed` returns true iff at least one
task run in the snapshot has first-condition status `False`, first-condition
reason different from `TaskRunCancelled`, and a non-null `completionTime`;
and it returns false for a snapshot whose only candidate task run satisfies
the status and reason conditions but has no `completionTime`. -/
theorem any_task_failed_iff (d : PipelineRunData) :
    (any_task_failed d = true ↔ ∃ tr ∈ d.taskRuns.map Prod.snd,
        tr.status.conditions0.status = "False"
        ∧ (tr.status.conditions0.reason == "TaskRunCancelled") = false
        ∧ tr.status.completionTime.isSome = true)
    ∧ any_task_failed incompleteFailedRunData = false := by
  constructor
  · simp only [any_task_failed, any_task_run_in_state, List.any_eq_true,
      matches_state, match_failed, Bool.and_eq_true, beq_iff_eq, bne_iff_ne,
      ne_eq]
    constructor
    · rintro ⟨tr, htr, ⟨hs, hr⟩, hc⟩
      exact ⟨tr, htr, hs, by simp [hr], hc⟩
    · rintro ⟨tr, htr, hs, hr, hc⟩
      refine ⟨tr, htr, ⟨hs, ?_⟩, hc⟩
      simpa using hr
  · decide

/-- A snapshot consumed by `PipelineRun.wait_for_taskruns`: the
`status.taskRuns` items as (task-run name, `pipelineTaskName`) pairs (`none`
models the `KeyError` of a snapshot without `status.taskRuns`), and
`status.conditions[0].status` (`none` models the `KeyError` of a snapshot
without any condition). -/
structure PRSnapshot where
  taskRuns : Option (List (String × String))
  conditionStatus : Option String
  deriving DecidableEq, Repr

/-- The inner loop of `wait_for_taskruns` over one snapshot's task runs:
carry the `watched_task_runs` set (modelled as a list queried by membership)
and collect, in iteration order, the batch of newly discovered
(`pipelineTaskName`, task-run name) pairs, adding each new name to the set. -/
def collectNew (watched : List String) :
    List (String × String) → List String × List (String × String)
  | [] => (watched, [])
  | (name, ptn) :: rest =>
    if name ∈ watched then collectNew watched rest
    else
      let r := collectNew (name :: watched) rest
      (r.1, (ptn, name) :: r.2)

/-- `PipelineRun.wait_for_taskruns` over the list of snapshots the watch
yields: a snapshot without `status.taskRuns` is skipped (`continue`);
otherwise the batch of newly discovered task runs is yielded, and the
generator then returns if the snapshot has no condition (`KeyError` after
the yield) or its first-condition status is `True` or `False`. -/
def wait_for_taskruns (watched : List String) :
    List PRSnapshot → List (List (String × String))
  | [] => []
  | s :: rest =>
    match s.taskRuns with
    | none => wait_for_taskruns watched rest
    | some trs =>
      let r := collectNew watched trs
      r.2 ::
        (match s.conditionStatus with
         | none => []
         | some st =>
           if st == "True" || st == "False" then []
           else wait_for_taskruns r.1 rest)

theorem collectNew_spec (l : List (String × String)) (w : List String) :
    ((collectNew w l).2.map Prod.snd).Nodup
    ∧ (∀ n ∈ (collectNew w l).2.map Prod.snd, ¬ n ∈ w)
    ∧ (∀ n, n ∈ (collectNew w l).1 ↔ n ∈ w ∨ n ∈ (collectNew w l).2.map Prod.snd) := by
  induction l generalizing w with
  | nil => simp [collectNew]
  | cons hd tl ih =>
    obtain ⟨name, ptn⟩ := hd
    by_cases h : name ∈ w
    · simpa [collectNew, h] using ih w
    · obtain ⟨ih1, ih2, ih3⟩ := ih (name :: w)
      have hcn : collectNew w ((name, ptn) :: tl)
          = ((collectNew (name :: w) tl).1, (ptn, name) :: (collectNew (name :: w) tl).2) := by
        simp [collectNew, h]
      rw [hcn]
      refine ⟨?_, ?_, ?_⟩
      · simp only [List.map_cons, List.nodup_cons]
        exact ⟨fun hmem => (ih2 name hmem) (List.mem_cons_self name w), ih1⟩
      · intro n hn
        simp only [List.map_cons, List.mem_cons] at hn
        rcases hn with rfl | hn
        · exact h
        · intro hw
          exact ih2 n hn (List.mem_cons_of_mem name hw)
      · intro n
        simp only [List.map_cons, List.mem_cons]
        rw [ih3 n]
        simp [List.mem_cons]
        tauto

theorem wait_for_taskruns_names (snaps : List PRSnapshot) :
    ∀ w : List String,
      (((wait_for_taskruns w snaps).flatten).map Prod.snd).Nodup
      ∧ ∀ n ∈ ((wait_for_taskruns w snaps).flatten).map Prod.snd, ¬ n ∈ w := by
  induction snaps with
  | nil => intro w; simp [wait_for_taskruns]
  | cons s rest ih =>
    intro w
    cases hs : s.taskRuns with
    | none =>
      simpa [wait_for_taskruns, hs] using ih w
    | some trs =>
      obtain ⟨hnd, hnotw, hmem⟩ := collectNew_spec trs w
      have hsub : ∀ n ∈ ((collectNew w trs).2.map Prod.snd), n ∈ (collectNew w trs).1 := by
        intro n hn
        exact (hmem n).2 (Or.inr hn)
      have hwsub : ∀ n ∈ w, n ∈ (collectNew w trs).1 := by
        intro n hn
        exact (hmem n).2 (Or.inl hn)
      have key : ∀ tailOut : List (List (String × String)),
          ((tailOut.flatten).map Prod.snd).Nodup →
          (∀ n ∈ (tailOut.flatten).map Prod.snd, ¬ n ∈ (collectNew w trs).1) →
          ((((collectNew w trs).2 :: tailOut).flatten).map Prod.snd).Nodup
          ∧ ∀ n ∈ (((collectNew w trs).2 :: tailOut).flatten).map Prod.snd, ¬ n ∈ w := by
        intro tailOut htnd htnw
        constructor
        · rw [List.flatten_cons, List.map_append, List.nodup_append]
          refine ⟨hnd, htnd, ?_⟩
          intro n hn hn'
          exact htnw n hn' (hsub n hn)
        · intro n hn
          rw [List.flatten_cons, List.map_append, List.mem_append] at hn
          rcases hn with hn | hn
          · exact hnotw n hn
          · intro hw
            exact htnw n hn (hwsub n hw)
      cases hc : s.conditionStatus with
      | none =>
        rw [show wait_for_taskruns w (s :: rest) = [(collectNew w trs).2] by
          simp [wait_for_taskruns, hs, hc]]
        exact key [] (by simp) (by simp)
      | some st =>
        by_cases hst : (st == "True" || st == "False") = true
        · rw [show wait_for_taskruns w (s :: rest) = [(collectNew w trs).2] by
            simp [wait_for_taskruns, hs, hc, hst]]
          exact key [] (by simp) (by simp)
        · rw [show wait_for_taskruns w (s :: rest)
              = (collectNew w trs).2 :: wait_for_taskruns (collectNew w trs).1 rest by
            simp [wait_for_taskruns, hs, hc, hst]]
          obtain ⟨h1, h2⟩ := ih (collectNew w trs).1
          exact key _ h1 h2

/-- Claim C5: within one call of `PipelineRun.wait_for_taskruns`, no
(`pipelineTaskName`, task-run name) pair is ever yielded in two different
batches — the task-run names across all yielded batches of one call
(starting from an empty watched set) are pairwise distinct — and the yielded
sequence terminates once a consumed snapshot's first-condition status is
`True` or `False`: such a snapshot's batch is the last element of the
output, whatever snapshots follow. -/
theorem wait_for_taskruns_dedup_and_stop
    (snaps : List PRSnapshot) (trs : List (String × String))
    (rest : List PRSnapshot) (watched : List String) :
    (((wait_for_taskruns [] snaps).flatten).map Prod.snd).Nodup
    ∧ wait_for_taskruns watched (⟨some trs, some "True"⟩ :: rest)
        = [(collectNew watched trs).2]
    ∧ wait_for_taskruns watched (⟨some trs, some "False"⟩ :: rest)
        = [(collectNew watched trs).2] := by
  refine ⟨(wait_for_taskruns_names snaps []).1, ?_, ?_⟩
  · simp [wait_for_taskruns]
  · simp [wait_for_taskruns]

/-- Python `int()` on a float idle duration: truncation toward zero. -/
def pyInt (q : ℚ) : ℤ := if 0 ≤ q then ⌊q⌋ else -⌊-q⌋

/-- The `min_idle_timeout` constant of `Pod._stream_logs`: if the connection
closes within this many seconds of idleness, give up. -/
def min_idle_timeout : ℚ := 60

/-- One connection session of `Pod._stream_logs`: the lines it yielded and
the idle duration in seconds — the time since the last received line, or
since the connection was opened if no line arrived — measured when the
connection closed (whether by normal stream end, a transport error, or a
swallowed wrapped exception; all reach the same idle check). -/
structure LogSession where
  lines : List String
  idle : ℚ
  deriving DecidableEq, Repr

/-- The `while True` loop of `Pod._stream_logs` over successive connection
sessions: yield each session's lines; on disconnect, end the generator if
the idle duration is under `min_idle_timeout`, else set
`kwargs['sinceSeconds'] = int(idle - 1)` and reconnect.  Returns the yielded
lines and the successive `sinceSeconds` values requested on reconnects. -/
def stream_logs : List LogSession → List String × List Int
  | [] => ([], [])
  | s :: rest =>
    if s.idle < min_idle_timeout then (s.lines, [])
    else
      let since := pyInt (s.idle - 1)
      let r := stream_logs rest
      (s.lines ++ r.1, since :: r.2)

/-- Claim C4: in `Pod._stream_logs`, for every disconnect of the streamed log
connection, if the idle time since the last received line (or since the
connection was opened) is strictly below the fixed 60-second threshold the
generator ends with no further reconnect, and if the idle time is at or
above the threshold it reconnects requesting logs with `sinceSeconds` equal
to the integer part of `idle - 1`. -/
theorem stream_logs_idle_reconnect (s : LogSession) (rest : List LogSession) :
    (s.idle < min_idle_timeout → stream_logs (s :: rest) = (s.lines, []))
    ∧ (min_idle_timeout ≤ s.idle →
        stream_logs (s :: rest)
          = (s.lines ++ (stream_logs rest).1,
             ⌊s.idle - 1⌋ :: (stream_logs rest).2)) := by
  constructor
  · intro h
    simp [stream_logs, h]
  · intro h
    have h' : ¬ s.idle < min_idle_timeout := not_lt.mpr h
    have hnn : (0 : ℚ) ≤ s.idle - 1 := by
      have : (60 : ℚ) ≤ s.idle := h
      linarith
    simp [stream_logs, h', pyInt, hnn]

/-- Witness for claim C4's theorem: a session disconnecting after 30 idle
seconds ends the stream, and one disconnecting after 61 idle seconds
reconnects requesting logs from `int(61 - 1) = 60` seconds ago. -/
theorem stream_logs_idle_reconnect_witness :
    ((30 : ℚ) < min_idle_timeout
      ∧ stream_logs [⟨["a"], 30⟩] = (["a"], []))
    ∧ (min_idle_timeout ≤ (61 : ℚ)
      ∧ stream_logs [⟨["b"], 61⟩, ⟨["c"], 10⟩]
          = (["b"] ++ (stream_logs [⟨["c"], 10⟩]).1,
             ⌊(61 : ℚ) - 1⌋ :: (stream_logs [⟨["c"], 10⟩]).2)) :=
  ⟨⟨by decide,
    (stream_logs_idle_reconnect ⟨["a"], 30⟩ []).1 (by decide)⟩,
   ⟨by decide,
    (stream_logs_idle_reconnect ⟨["b"], 61⟩ [⟨["c"], 10⟩]).2 (by decide)⟩⟩

/-- The polling loop of `PipelineRun.wait_for_finish`: `polls i` is what
`has_not_finished()` returns on the `i`-th poll; each positive poll sleeps
`WAIT_RETRY_SECS`, a negative poll breaks out.  Returns the number of sleeps
performed.  The function is total and its type carries no error: the loop
exits by `break` or by exhausting `range(WAIT_RETRY)`, never by raising. -/
def waitLoop (polls : Nat → Bool) : Nat → Nat → Nat → Nat
  | _, 0, sleeps => sleeps
  | i, fuel + 1, sleeps =>
    if polls i then waitLoop polls (i + 1) fuel (sleeps + 1) else sleeps

/-- `PipelineRun.wait_for_finish`: poll up to `WAIT_RETRY` times. -/
def wait_for_finish (polls : Nat → Bool) : Nat :=
  waitLoop polls 0 WAIT_RETRY 0

theorem waitLoop_le (polls : Nat → Bool) :
    ∀ (fuel i sleeps : Nat), waitLoop polls i fuel sleeps ≤ sleeps + fuel := by
  intro fuel
  induction fuel with
  | zero => intro i sleeps; simp [waitLoop]
  | succ n ih =>
    intro i sleeps
    rw [waitLoop]
    by_cases h : polls i = true
    · simp only [h, if_true]
      calc waitLoop polls (i + 1) n (sleeps + 1) ≤ sleeps + 1 + n := ih (i + 1) (sleeps + 1)
        _ = sleeps + (n + 1) := by omega
    · rw [Bool.not_eq_true] at h
      simp [h]

theorem waitLoop_all_true :
    ∀ (fuel i sleeps : Nat), waitLoop (fun _ => true) i fuel sleeps = sleeps + fuel := by
  intro fuel
  induction fuel with
  | zero => intro i sleeps; simp [waitLoop]
  | succ n ih =>
    intro i sleeps
    rw [waitLoop]
    simp only [if_true]
    rw [ih (i + 1) (sleeps + 1)]
    omega

/-- Claim C9: `PipelineRun.wait_for_finish` always terminates and returns
normally — it is a total function whose result type carries no exception —
after at most `WAIT_RETRY` polling iterations, each positive poll separated
by a fixed `WAIT_RETRY_SECS` delay; when `has_not_finished()` stays true on
every poll the full budget of `WAIT_RETRY` sleeps is spent, amounting to
`WAIT_RETRY_HOURS` hours of delay, and the loop still ends silently. -/
theorem wait_for_finish_bounded (polls : Nat → Bool) :
    wait_for_finish polls ≤ WAIT_RETRY
    ∧ wait_for_finish (fun _ => true) = WAIT_RETRY
    ∧ WAIT_RETRY * WAIT_RETRY_SECS = WAIT_RETRY_HOURS * 3600 := by
  refine ⟨?_, ?_, by decide⟩
  · have := waitLoop_le polls WAIT_RETRY 0 0
    simpa [wait_for_finish] using this
  · have := waitLoop_all_true WAIT_RETRY 0 0
    simpa [wait_for_finish] using this

/-- `metadata` of a pipeline-run input manifest. -/
structure ManifestMetadata where
  name : Option String
  deriving DecidableEq, Repr

/-- A pipeline-run input manifest (`pipeline_run_data`), with the fields
`start_pipeline_run` reads before POSTing it. -/
structure Manifest where
  metadata : Option ManifestMetadata
  deriving DecidableEq, Repr

/-- Result of `PipelineRun.start_pipeline_run`: an `OsbsException` raised
before any network call, or the POST of the manifest to the pipeline-runs
endpoint. -/
inductive StartResult where
  | error (msg : String) : StartResult
  | posted (body : Manifest) : StartResult
  deriving DecidableEq, Repr

/-- Whether a `start_pipeline_run` outcome issued the POST. -/
def issuedPost : StartResult → Bool
  | .posted _ => true
  | .error _ => false

/-- `PipelineRun.start_pipeline_run`: raises when no input data was supplied,
or when `input_data.get('metadata', {}).get('name')` differs from the
controller's pipeline-run name; only otherwise is the POST issued. -/
def start_pipeline_run (pipeline_run_name : String)
    (input_data : Option Manifest) : StartResult :=
  match input_data with
  | none => .error "No input data provided for pipeline run to start"
  | some m =>
    let run_name := m.metadata.bind (fun md => md.name)
    if run_name ≠ some pipeline_run_name then
      .error ("Pipeline run name provided '" ++ pipeline_run_name
        ++ "' is different than in input data '" ++ run_name.getD "None" ++ "'")
    else .posted m

/-- Claim C6: `PipelineRun.start_pipeline_run` fails with an error before
performing any network call whenever no input manifest was supplied, or the
manifest's metadata name differs from the controller's target pipeline-run
name; no POST is issued in either failure case. -/
theorem start_pipeline_run_validates_before_post
    (pipeline_run_name : String) (m : Manifest) :
    (start_pipeline_run pipeline_run_name none
        = .error "No input data provided for pipeline run to start"
      ∧ issuedPost (start_pipeline_run pipeline_run_name none) = false)
    ∧ ((m.metadata.bind (fun md => md.name) == some pipeline_run_name) = false →
        issuedPost (start_pipeline_run pipeline_run_name (some m)) = false) := by
  refine ⟨⟨rfl, rfl⟩, ?_⟩
  intro h
  have h' : m.metadata.bind (fun md => md.name) ≠ some pipeline_run_name := by
    intro he
    rw [he] at h
    simp at h
  simp [start_pipeline_run, h', issuedPost]

/-- Witness for claim C6's theorem: a run targeted at `build-1` whose
manifest metadata names `build-2` issues no POST. -/
theorem start_pipeline_run_validates_before_post_witness :
    ((Manifest.mk (some ⟨some "build-2"⟩)).metadata.bind (fun md => md.name)
        == some "build-1") = false
    ∧ issuedPost (start_pipeline_run "build-1"
        (some (Manifest.mk (some ⟨some "build-2"⟩)))) = false :=
  ⟨by decide,
   (start_pipeline_run_validates_before_post "build-1"
      (Manifest.mk (some ⟨some "build-2"⟩))).2 (by decide)⟩

/-- Result of `Pod.get_logs`, with a streaming generator fully consumed:
`streamTypeError` models the `TypeError` raised when `_get_logs_stream`
iterates over an absent (`None`) container list; `streamOk` the consumed
per-container streams (sequential by container); `perContainer` the
container-to-text mapping of `_get_logs`; `single` the undifferentiated text
of `_get_logs_no_container`. -/
inductive GetLogsResult where
  | streamOk (lines : List String) : GetLogsResult
  | streamTypeError : GetLogsResult
  | perContainer (logs : List (String × String)) : GetLogsResult
  | single (text : String) : GetLogsResult
  deriving DecidableEq, Repr

/-- `Pod.get_logs`: with `follow` or `wait`, return the consumed log stream
(`_get_logs_stream`, which iterates `self.containers`); otherwise fetch per
declared container when the container list is truthy (non-`None` and
non-empty), else one undifferentiated fetch.  `containerLog` is the oracle
for one container's streamed or fetched log text, `fullLog` for the
undifferentiated fetch. -/
def pod_get_logs (containers : Option (List String))
    (containerLog : String → String) (fullLog : String)
    (follow wait : Bool) : GetLogsResult :=
  if follow || wait then
    match containers with
    | none => .streamTypeError
    | some cs => .streamOk (cs.map containerLog)
  else
    match containers with
    | some (c :: cs) => .perContainer ((c :: cs).map (fun x => (x, containerLog x)))
    | _ => .single fullLog

/-- Claim C10: `Pod.get_logs` with `follow` or `wait` set requires a declared
container list — for a Pod constructed with `containers=None`, consuming the
streaming generator fails with a `TypeError` (iterating `None`), whereas the
same Pod in non-streaming mode succeeds via the single undifferentiated log
fetch; and when `containers` is a (possibly empty) list, the streaming path
never reaches the error. -/
theorem pod_get_logs_requires_containers
    (containerLog : String → String) (fullLog : String) (cs : List String) :
    pod_get_logs none containerLog fullLog true false = .streamTypeError
    ∧ pod_get_logs none containerLog fullLog false true = .streamTypeError
    ∧ pod_get_logs none containerLog fullLog true true = .streamTypeError
    ∧ pod_get_logs none containerLog fullLog false false = .single fullLog
    ∧ pod_get_logs (some cs) containerLog fullLog true false
        = .streamOk (cs.map containerLog)
    ∧ pod_get_logs (some cs) containerLog fullLog false true
        = .streamOk (cs.map containerLog)
    ∧ pod_get_logs (some cs) containerLog fullLog true true
        = .streamOk (cs.map containerLog) :=
  ⟨rfl, rfl, rfl, rfl, rfl, rfl, rfl⟩

/-- A Python exception relevant to the token exchange: the
`OsbsAuthException` raised by `_request_args`, or the bare `KeyError`
escaping `get_oauth_token`. -/
inductive PyErr where
  | osbsAuthError (msg : String) : PyErr
  | keyError (key : String) : PyErr
  deriving DecidableEq, Repr

/-- The response to the unauthenticated redirect request of
`get_oauth_token`, abstracted to its `Location` header: absent, or present
with the `parse_qs` of the redirect URL's fragment (first value per key;
`parse_qs` never produces an empty value list). -/
structure OauthResponse where
  location : Option (List (String × String))
  deriving DecidableEq, Repr

/-- `Openshift.get_oauth_token` after the redirect request: a missing
`Location` header is logged and the method returns `""` leaving the stored
token unchanged; otherwise `parse_qs(fragment)['access_token'][0]` is stored
and returned, the lookup raising `KeyError` when the key is absent.  The
result carries the new stored-token state and the returned string. -/
def get_oauth_token (token : Option String) (r : OauthResponse) :
    Except PyErr (Option String × String) :=
  match r.location with
  | none => .ok (token, "")
  | some fragment =>
    match fragment.lookup "access_token" with
    | none => .error (.keyError "access_token")
    | some v => .ok (some v, v)

/-- The authorization step of `Openshift._request_args`: when auth is in use
and no token is cached, run the token exchange; afterwards a truthy stored
token becomes a Bearer header, and a falsy one (still `None`, or empty)
raises `OsbsAuthException`. -/
def request_args_auth (use_auth with_auth : Bool) (token0 : Option String)
    (r : OauthResponse) : Except PyErr (Option String) :=
  if with_auth && use_auth then
    match (if token0.isNone then get_oauth_token token0 r
           else .ok (token0, "")) with
    | .error e => .error e
    | .ok (token1, _) =>
      match token1 with
      | some t =>
        if t ≠ "" then .ok (some ("Bearer " ++ t))
        else .error (.osbsAuthError
          "Please check your credentials. Token was not retrieved successfully.")
      | none => .error (.osbsAuthError
          "Please check your credentials. Token was not retrieved successfully.")
  else .ok none

/-- Whether the request preparation failed with the authentication-specific
`OsbsAuthException`. -/
def isAuthError : Except PyErr (Option String) → Bool
  | .error (.osbsAuthError _) => true
  | _ => false

/-- Whether the request preparation failed with any raised exception. -/
def isFailure : Except PyErr (Option String) → Bool
  | .error _ => true
  | _ => false

/-- Claim C7 (amended): during the OAuth token exchange driven by
`_request_args` (auth in use, no token cached), a response with no
`Location` header leads to an `OsbsAuthException` — `get_oauth_token`
returns `""` without storing a token and `_request_args` raises on the falsy
token — but a redirect whose URL fragment has no `access_token` key raises
the bare `KeyError` from `parse_qs(fragment)['access_token']`, a generic
exception rather than an authentication-specific error. -/
theorem request_args_auth_failure_modes (fragment : List (String × String)) :
    request_args_auth true true none ⟨none⟩
      = .error (.osbsAuthError
          "Please check your credentials. Token was not retrieved successfully.")
    ∧ (fragment.lookup "access_token" = none →
        request_args_auth true true none ⟨some fragment⟩
          = .error (.keyError "access_token")) := by
  refine ⟨rfl, ?_⟩
  intro h
  simp [request_args_auth, get_oauth_token, h]

/-- Witness for claim C7's theorem: a redirect URL whose fragment carries
only a `state` key has no `access_token` entry. -/
theorem request_args_auth_failure_modes_witness :
    ([("state", "abc")].lookup "access_token" = (none : Option String))
    ∧ request_args_auth true true none ⟨some [("state", "abc")]⟩
        = .error (.keyError "access_token") :=
  ⟨by decide,
   (request_args_auth_failure_modes [("state", "abc")]).2 (by decide)⟩

/-- Counterexample to claim C7 as stated: with auth in use, no cached token,
and a redirect whose fragment lacks the `access_token` key, the operation
does fail — but with the bare `KeyError`, not an authentication-specific
error as the claim requires. -/
theorem oauth_missing_access_token_not_auth_error :
    isFailure (request_args_auth true true none ⟨some [("state", "abc")]⟩) = true
    ∧ isAuthError (request_args_auth true true none ⟨some [("state", "abc")]⟩) = false := by
  decide

/-- Stable insertion of one `status.taskRuns` item into a list already
sorted by ascending `startTime` key: the inserted element goes after every
element with a strictly smaller key and before later-listed elements with an
equal key, matching Python's stable `sorted`. -/
def insertByStartTime (x : String × TaskRun) :
    List (String × TaskRun) → List (String × TaskRun)
  | [] => [x]
  | y :: ys =>
    if y.2.status.startTime < x.2.status.startTime then y :: insertByStartTime x ys
    else x :: y :: ys

/-- `get_sorted_task_runs`: the `status.taskRuns` items sorted by ascending
parsed `startTime` (the source parses the ISO-8601 `startTime` string to a
timestamp and uses Python's stable `sorted`). -/
def get_sorted_task_runs (task_runs : List (String × TaskRun)) :
    List (String × TaskRun) :=
  task_runs.foldr insertByStartTime []

/-- Error fragments contributed by one step of a non-succeeded task run in
`get_error_message`: a step without a `terminated` record, terminated with
exit code 0, without a message, or with an unparsable message (swallowed)
contributes nothing; otherwise each parsed message entry whose `key` is
`task_result` contributes one line. -/
def stepErrors (task_name : String) (step : Step) : String :=
  match step.terminated with
  | none => ""
  | some t =>
    if t.exitCode == 0 then ""
    else
      match t.message with
      | none => ""
      | some none => ""
      | some (some entries) =>
        String.join (entries.map (fun m =>
          if m.1 == "task_result" then
            "Error in " ++ task_name ++ ": " ++ m.2 ++ ";\n"
          else ""))

/-- `PipelineRun.get_error_message` on an existing run's data: concatenate
plugin-reported errors from the parsed `plugins-metadata` annotation, then,
for every task run in start-time order whose first-condition reason is not
`Succeeded`, the `task_result` messages of its failed steps; fall back to a
generic message when nothing was collected. -/
def get_error_message (d : PipelineRunData) : String :=
  let pluginMsg :=
    match d.pluginErrors with
    | none => ""
    | some errs =>
      String.join (errs.map (fun pe =>
        "Error in plugin " ++ pe.1 ++ ": " ++ pe.2 ++ ";\n"))
  let taskMsg :=
    String.join ((get_sorted_task_runs d.taskRuns).map (fun nr =>
      if nr.2.status.conditions0.reason == "Succeeded" then ""
      else
        match nr.2.status.steps with
        | none => ""
        | some steps => String.join (steps.map (stepErrors nr.2.pipelineTaskName))))
  let err_message := pluginMsg ++ taskMsg
  if err_message == "" then "pipeline run failed;" else err_message

/-- `PipelineRun.status_reason`: `conditions[0].reason` of a fresh read, or
`None` when the run does not exist. -/
def status_reason (d : Option PipelineRunData) : Option String :=
  d.map (fun x => x.conditions0.reason)

/-- `PipelineRun.has_succeeded`: the status reason equals `Succeeded`. -/
def has_succeeded (d : Option PipelineRunData) : Bool :=
  status_reason d == some "Succeeded"

theorem fallback_if_empty_ne_empty (s : String) :
    ((if s == "" then "pipeline run failed;" else s) == "") = false := by
  by_cases h : s == ""
  · simp [h]
  · simp [h]

/-- Used by claim C8: the snapshot of a run whose condition list is
`[{status: "True", reason: "Succeeded"}]`, with no plugin error annotations
and no failing task runs. -/
def succeededRunData : PipelineRunData := ⟨none, ⟨"True", "Succeeded"⟩, []⟩

/-- Claim C8: for a pipeline run whose snapshot's first condition is
`{status: "True", reason: "Succeeded"}` with nothing to extract error detail
from, `has_succeeded()` returns true and `get_error_message()` returns the
non-empty generic fallback message rather than an empty string; and on any
existing run's data `get_error_message()` never returns the empty string. -/
theorem succeeded_run_error_message (d : PipelineRunData) :
    has_succeeded (some succeededRunData) = true
    ∧ get_error_message succeededRunData = "pipeline run failed;"
    ∧ ("pipeline run failed;" == "") = false
    ∧ (get_error_message d == "") = false := by
  refine ⟨by decide, by decide, by decide, ?_⟩
  exact fallback_if_empty_ne_empty _
